import Mathlib

/-!
Shallow embedding of the tcconfig HTB shaper (`tcconfig/shaper/htb.py`) and of
the command helper (`tcconfig/_common.py`): identifier allocation, command
construction, and the `set_shaping` orchestration, together with theorems about
the already-exists handling, the allocator arithmetic and the filter steps.

Strings are modelled as Lean `String`/`List Char`; the two fixed regular
expressions used by the allocators are embedded as explicit maximal-munch
scanners (for these patterns, greedy matching needs no backtracking, so the
scanners compute exactly Python's `re.findall`).  The external subprocess
executor is an oracle supplying, per dispatched command, an exit code and a
captured stderr text.
-/

namespace Tcconfig

/-- Lowercase ASCII letter, the character class written `[a-z]` in the source
regular expressions. -/
def isLowerAlpha (c : Char) : Bool := 'a' ≤ c && c ≤ 'z'

/-- Lowercase letter or decimal digit, the character class `[a-z0-9]`. -/
def isLowerAlnum (c : Char) : Bool := isLowerAlpha c || c.isDigit

/-- `containsSub needle hay`: does `needle` occur as a contiguous substring of
`hay`?  Models Python's `re.search` of a plain-text pattern. -/
def containsSub (needle : List Char) : List Char → Bool
  | [] => needle.isEmpty
  | c :: t => needle.isPrefixOf (c :: t) || containsSub needle t

/-- Substring search over `String`s. -/
def containsStr (hay needle : String) : Bool := containsSub needle.data hay.data

/-- Python's `str.split(sep)` for a one-character separator: no collapsing of
adjacent separators, empty pieces kept. -/
def splitChar (sep : Char) : List Char → List (List Char)
  | [] => [[]]
  | c :: t =>
    let r := splitChar sep t
    if c = sep then [] :: r
    else
      match r with
      | h :: rest => (c :: h) :: rest
      | [] => [[c]]

/-- Value of a decimal digit character. -/
def decDigitVal (c : Char) : Option Nat :=
  if c.isDigit then some (c.toNat - '0'.toNat) else none

/-- Value of a lowercase hexadecimal digit character (the scanned tokens are
drawn from `[a-z0-9]`, so uppercase digits cannot occur). -/
def hexDigitVal (c : Char) : Option Nat :=
  if c.isDigit then some (c.toNat - '0'.toNat)
  else if 'a' ≤ c && c ≤ 'f' then some (c.toNat - 'a'.toNat + 10)
  else none

/-- Integer conversion of a decimal digit string; `none` on the inputs where
`typepy.type.Integer(...).convert()` raises `TypeConversionError`. -/
def pyIntDec (cs : List Char) : Option Nat :=
  if cs.isEmpty then none
  else cs.foldl (fun acc c =>
    match acc, decDigitVal c with
    | some a, some d => some (10 * a + d)
    | _, _ => none) (some 0)

/-- Hexadecimal digits without prefix; `none` when empty or a non-hex character
occurs. -/
def hexCore (cs : List Char) : Option Nat :=
  if cs.isEmpty then none
  else cs.foldl (fun acc c =>
    match acc, hexDigitVal c with
    | some a, some d => some (16 * a + d)
    | _, _ => none) (some 0)

/-- Python's `int(s, 16)` on a token drawn from `[a-z0-9]+`: an optional `0x`
prefix followed by at least one hexadecimal digit; `none` where `int` raises
`ValueError`. -/
def pyIntHex (cs : List Char) : Option Nat :=
  match cs with
  | '0' :: 'x' :: rest => hexCore rest
  | _ => hexCore cs

/-- Maximum of a list of naturals (0 for the empty list). -/
def listMax (l : List Nat) : Nat := l.foldr max 0

theorem le_listMax {n : Nat} : ∀ {l : List Nat}, n ∈ l → n ≤ listMax l := by
  intro l
  induction l with
  | nil => intro h; cases h
  | cons a t ih =>
    intro h
    rcases List.mem_cons.mp h with rfl | h
    · exact le_max_left _ _
    · exact le_trans (ih h) (le_max_right _ _)

/-- Fuelled version of the `while next_id in exist_list: next_id += 1` loop of
the allocators; the fuel is only a termination bound. -/
def firstFreeAux (ids : List Nat) : Nat → Nat → Nat
  | 0, n => n
  | fuel + 1, n => if n ∈ ids then firstFreeAux ids fuel (n + 1) else n

/-- The linear upward scan of the allocators: the first identifier `≥ n` that
is not in `ids` (`listMax ids + 1` steps always suffice). -/
def firstFree (ids : List Nat) (n : Nat) : Nat :=
  firstFreeAux ids (listMax ids + 1) n

theorem firstFreeAux_spec (ids : List Nat) :
    ∀ fuel n, listMax ids < n + fuel →
      firstFreeAux ids fuel n ∉ ids ∧ n ≤ firstFreeAux ids fuel n ∧
        ∀ k, n ≤ k → k < firstFreeAux ids fuel n → k ∈ ids := by
  intro fuel
  induction fuel with
  | zero =>
    intro n h
    refine ⟨?_, Nat.le_refl n, ?_⟩
    · intro hmem
      have := le_listMax hmem
      simp [firstFreeAux] at *
      omega
    · intro k hk1 hk2
      simp [firstFreeAux] at hk2
      omega
  | succ fuel ih =>
    intro n h
    by_cases hn : n ∈ ids
    · have hrec := ih (n + 1) (by omega)
      obtain ⟨h1, h2, h3⟩ := hrec
      refine ⟨?_, ?_, ?_⟩
      · simpa [firstFreeAux, hn] using h1
      · simp only [firstFreeAux, if_pos hn]
        omega
      · intro k hk1 hk2
        simp only [firstFreeAux, if_pos hn] at hk2
        rcases Nat.eq_or_lt_of_le hk1 with rfl | hlt
        · exact hn
        · exact h3 k (by omega) hk2
    · simp only [firstFreeAux, if_neg hn]
      exact ⟨hn, Nat.le_refl n, fun k hk1 hk2 => absurd (lt_of_le_of_lt hk1 hk2) (lt_irrefl n)⟩

theorem firstFree_spec (ids : List Nat) (n : Nat) :
    firstFree ids n ∉ ids ∧ n ≤ firstFree ids n ∧
      ∀ k, n ≤ k → k < firstFree ids n → k ∈ ids :=
  firstFreeAux_spec ids (listMax ids + 1) n (by omega)

/-- Non-overlapping left-to-right scan of `re.findall`: at each position try the
matcher; on success record the matched text and resume after it, otherwise
advance one character.  Both matchers below consume at least one character on
success, so fuel equal to the text length always suffices. -/
def scanMatches (m : List Char → Option (List Char × List Char)) :
    Nat → List Char → List (List Char)
  | 0, _ => []
  | _ + 1, [] => []
  | fuel + 1, c :: rest =>
    match m (c :: rest) with
    | some (mt, r) => mt :: scanMatches m fuel r
    | none => scanMatches m fuel rest

/-- `re.findall(pattern, text)` for a fixed matcher. -/
def reFindAll (m : List Char → Option (List Char × List Char)) (s : String) :
    List (List Char) :=
  scanMatches m s.data.length s.data

/-- Matcher of a literal followed by `[0-9]+` (greedy; at the end of the
pattern greedy matching never backtracks). -/
def matchLitDigits (lit : List Char) (cs : List Char) :
    Option (List Char × List Char) :=
  if lit.isPrefixOf cs then
    let rest := cs.drop lit.length
    let p := rest.span Char.isDigit
    if p.1.isEmpty then none else some (lit ++ p.1, p.2)
  else none

/-- The constant `ShapingAlgorithm.HTB`. -/
def algorithmName : String := "htb"

/-- The literal part of the pattern
`"class {algorithm:s} {qdisc_major_id:s}[\:][0-9]+"` of
`HtbShaper.__get_unique_qdisc_minor_id` (the major-id string is hexadecimal
digits, so it holds no regex metacharacters). -/
def classItemLit (major : String) : List Char :=
  ("class " ++ algorithmName ++ " " ++ major ++ ":").data

/-- The literal head of the pattern `"qdisc [a-z]+ [a-z0-9]+"` of
`HtbShaper.__get_unique_netem_major_id`. -/
def qdiscLit : List Char := "qdisc ".data

/-- Matcher for `qdisc [a-z]+ [a-z0-9]+`.  Each `+` is greedy; since every
proper prefix of a maximal run is followed by a character of the same class
(never the required space), maximal munch equals Python's backtracking
semantics here. -/
def matchNetemItem (cs : List Char) : Option (List Char × List Char) :=
  if qdiscLit.isPrefixOf cs then
    let r0 := cs.drop qdiscLit.length
    let p1 := r0.span isLowerAlpha
    if p1.1.isEmpty then none
    else
      match p1.2 with
      | ' ' :: r2 =>
        let p2 := r2.span isLowerAlnum
        if p2.1.isEmpty then none
        else some (qdiscLit ++ p1.1 ++ ' ' :: p2.1, p2.2)
      | _ => none
  else none

/-- The matched `class htb <major>:<minor>` items of the class listing. -/
def existClassItems (major listing : String) : List (List Char) :=
  reFindAll (matchLitDigits (classItemLit major)) listing

/-- `class_item.split(":")[1]` converted by `typepy.type.Integer(...).convert()`,
with a conversion failure skipped (the `try`/`except TypeConversionError`
around the append). -/
def existClassMinorIds (major listing : String) : List Nat :=
  (existClassItems major listing).filterMap
    (fun item => pyIntDec ((splitChar ':' item).getD 1 []))

/-- The matched `qdisc <alg> <token>` items of the qdisc listing. -/
def netemItems (listing : String) : List (List Char) :=
  reFindAll matchNetemItem listing

/-- `netem_item.split()[-1]`: the matched items carry exactly single spaces, so
whitespace splitting agrees with splitting on one space. -/
def lastWord (cs : List Char) : List Char := ((splitChar ' ' cs).getLast?).getD []

/-- The conversion loop
`for netem_item in ...: list.append(int(netem_item.split()[-1], 16))`:
it has no guard, so the first failing conversion raises `ValueError` and the
whole allocation aborts (`none`). -/
def convertAllHex : List (List Char) → Option (List Nat)
  | [] => some []
  | it :: rest =>
    match pyIntHex (lastWord it) with
    | none => none
    | some v =>
      match convertAllHex rest with
      | none => none
      | some vs => some (v :: vs)

/-- The trailing major ids of the qdisc listing, `none` when some matched token
fails base-16 conversion. -/
def netemMajorIds (listing : String) : Option (List Nat) :=
  convertAllHex (netemItems listing)

theorem convertAllHex_eq_none_iff (l : List (List Char)) :
    convertAllHex l = none ↔
      (l.any fun it => (pyIntHex (lastWord it)).isNone) = true := by
  induction l with
  | nil => simp [convertAllHex]
  | cons it rest ih =>
    cases hh : pyIntHex (lastWord it) with
    | none => simp [convertAllHex, hh]
    | some v =>
      cases hr : convertAllHex rest with
      | none =>
        simp only [convertAllHex, hh, hr, List.any_cons, hh, Option.isNone_some,
          Bool.false_or]
        simpa [hr] using ih
      | some vs =>
        simp only [convertAllHex, hh, hr, List.any_cons, Option.isNone_some,
          Bool.false_or]
        simpa [hr] using ih

/-- Result of one external command dispatched through the subprocess runner:
exit code and captured stderr (`proc.returncode`, `proc.stderr`). -/
structure CmdResult where
  returncode : Int
  stderr : String
deriving DecidableEq

/-- The fatal stderr text tested by
`re.search("RTNETLINK answers: Operation not permitted", proc.stderr)`. -/
def opNotPermitted (s : String) : Bool :=
  containsStr s "RTNETLINK answers: Operation not permitted"

/-- The three ways `run_command_helper` can leave: a normal `return`, a
`sys.exit(proc.returncode)`, or `raise exception_class(command)`. -/
inductive HelperOutcome where
  | ret (code : Int)
  | exited (code : Int)
  | raised
deriving DecidableEq

/-- `run_command_helper(command, ignore_error_msg_regexp, notice_msg,
exception_class)` of `tcconfig/_common.py`.  The compiled regexp argument is
modelled by its `search`-matches predicate (`none` models passing `None`);
`notice_msg` only feeds `logger.notice` and does not affect the outcome;
`raisesAlreadyExist` models whether `exception_class` was supplied. -/
def runCommandHelper (res : CmdResult) (ignorePat : Option (String → Bool))
    (noticeMsg : Option String) (raisesAlreadyExist : Bool) : HelperOutcome :=
  if res.returncode = 0 then .ret 0
  else
    let patGivenNoMatch :=
      match ignorePat with
      | some p => !(p res.stderr)
      | none => false
    if patGivenNoMatch then
      if opNotPermitted res.stderr then .exited res.returncode
      else .ret res.returncode
    else
      let _ := noticeMsg
      if raisesAlreadyExist then .raised else .ret res.returncode

/-- `errno.EINVAL`. -/
def EINVAL : Int := 22

/-- The per-invocation mutable fields set in `HtbShaper.__init__`. -/
structure ShaperState where
  qdisc_minor_id : Option Nat
  qdisc_minor_id_count : Nat
  netem_major_id : Option Nat
  classid_wo_shaping : Option String
deriving DecidableEq

/-- The state right after `HtbShaper.__init__`. -/
def initState : ShaperState :=
  { qdisc_minor_id := none, qdisc_minor_id_count := 0,
    netem_major_id := none, classid_wo_shaping := none }

/-- `typepy.is_null_string`: `True` for `None` and for a string that is empty
after stripping whitespace (equivalently: all-whitespace). -/
def isNullOptStr : Option String → Bool
  | none => true
  | some s => s.data.all fun c => c.isWhitespace

/-- The immutable shaping specification and collaborators consulted by the
shaper for one invocation: the `tc_obj` fields read by `htb.py`, the
`get_tc_command` results per sub-command, the compiled
`REGEXP_FILE_EXISTS.search` predicate, the `_get_tc_parent` collaborator
(defined outside `htb.py`), the `get_no_limit_kbits` value for the device, and
the `run_tc_show` listings the Existing-State Inspector would return. -/
structure TcConfig where
  dev : String
  is_add_shaping_rule : Bool
  is_change_shaping_rule : Bool
  /-- `tc_command_output == TcCommandOutput.NOT_SET`, i.e. execute mode. -/
  tc_command_output_not_set : Bool
  qdisc_major_id : Nat
  qdisc_major_id_str : String
  bandwidth_rate : Option Nat
  no_limit_kbits : Nat
  protocol : String
  protocol_match : String
  exclude_dst_network : Option String
  exclude_src_network : Option String
  exclude_dst_port : Option String
  exclude_src_port : Option String
  qdisc_command : Option String
  class_command : Option String
  filter_command : Option String
  file_exists_matches : String → Bool
  tc_parent_of : String → String
  class_show_output : String
  qdisc_show_output : String

/-- Results the external executor returns for each phase's single dispatch. -/
structure ExecEnv where
  qdisc_result : CmdResult
  default_class_result : CmdResult
  rate_result : CmdResult
  netem_result : CmdResult
  exclude_filter_result : CmdResult
  filter_result : CmdResult

/-- The rate-limited class-creation command of `HtbShaper._add_rate`, kept
structured: the source renders it as one string, with `burst`/`cburst` printed
from the true-division value `kbits / (10 * 8)` (a Python float; only its
exact rational value is modelled). -/
structure RateCommand where
  base : String
  dev : String
  parent : String
  classid : String
  algorithm : String
  rate_kbit : Nat
  ceil_kbit : Nat
  burst_KB : Option ℚ
  cburst_KB : Option ℚ
deriving DecidableEq

/-- Observable actions of one invocation: configuration commands dispatched to
the executor and `tc ... show` queries of the Existing-State Inspector.  The
commands of `_set_netem` and `_add_filter` (outside `src/`) are recorded as
bare markers. -/
inductive Event where
  | qdiscCmd (cmd : String)
  | defaultClassCmd (cmd : String)
  | rateCmd (c : RateCommand)
  | netemCmd
  | excludeFilterCmd (cmd : String)
  | classifyFilterCmd
  | showClasses
  | showQdiscs
deriving DecidableEq

/-- How a phase of `set_shaping` ends: a normal return (return values are
ignored by `set_shaping`), a raised `TcAlreadyExist`, a propagated
`sys.exit(code)`, a `TypeError` (formatting `None`, joining `None`), or a
`ValueError` (unguarded `int(_, 16)`). -/
inductive StepOut where
  | ok
  | raisedAlreadyExist
  | exited (code : Int)
  | typeError
  | valueError
deriving DecidableEq

/-- `HtbShaper.__get_unique_qdisc_minor_id`. -/
def getUniqueQdiscMinorId (cfg : TcConfig) (st : ShaperState) :
    Nat × ShaperState × List Event :=
  if !cfg.tc_command_output_not_set || cfg.is_change_shaping_rule then
    let c := st.qdisc_minor_id_count + 1
    (1 + c, { st with qdisc_minor_id_count := c }, [])
  else
    let ids := existClassMinorIds cfg.qdisc_major_id_str cfg.class_show_output
    (firstFree ids 1, st, [Event.showClasses])

/-- `HtbShaper._get_qdisc_minor_id` (memoizing wrapper). -/
def getQdiscMinorId (cfg : TcConfig) (st : ShaperState) :
    Nat × ShaperState × List Event :=
  match st.qdisc_minor_id with
  | some m => (m, st, [])
  | none =>
    let r := getUniqueQdiscMinorId cfg st
    (r.1, { r.2.1 with qdisc_minor_id := some r.1 }, r.2.2)

/-- `HtbShaper.__get_unique_netem_major_id`: the `run_tc_show` query happens
before the conversion loop, so the query event is recorded even when a
conversion aborts. -/
def getUniqueNetemMajorId (cfg : TcConfig) (st : ShaperState) :
    Option Nat × ShaperState × List Event :=
  match netemMajorIds cfg.qdisc_show_output with
  | none => (none, st, [Event.showQdiscs])
  | some ids =>
    (some (firstFree ids (cfg.qdisc_major_id + 128)), st, [Event.showQdiscs])

/-- `HtbShaper._get_netem_qdisc_major_id` (memoizing wrapper; its `base_id`
argument is unused in the source). -/
def getNetemQdiscMajorId (cfg : TcConfig) (baseId : Nat) (st : ShaperState) :
    Option Nat × ShaperState × List Event :=
  let _ := baseId
  match st.netem_major_id with
  | some m => (some m, st, [])
  | none =>
    match getUniqueNetemMajorId cfg st with
    | (none, st1, evs) => (none, st1, evs)
    | (some m, st1, evs) => (some m, { st1 with netem_major_id := some m }, evs)

/-- The root-discipline command text of `HtbShaper._make_qdisc`
(`DEFAULT_CLASS_MINOR_ID` is 1). -/
def makeQdiscCmd (cfg : TcConfig) (base : String) : String :=
  String.intercalate " "
    [base, cfg.dev, "root", "handle " ++ cfg.qdisc_major_id_str ++ ":",
      algorithmName, "default 1"]

/-- The default-class command text of `HtbShaper.__add_default_class`. -/
def defaultClassCmd (cfg : TcConfig) (base : String) : String :=
  String.intercalate " "
    [base, cfg.dev, "parent " ++ cfg.qdisc_major_id_str ++ ":",
      "classid " ++ cfg.qdisc_major_id_str ++ ":1", algorithmName,
      "rate " ++ toString cfg.no_limit_kbits ++ "kbit"]

/-- `HtbShaper.__add_default_class`: remembers the default classid in
`__classid_wo_shaping` before dispatching (also before the `" ".join` would
fail on a `None` base command), then runs the helper with the file-exists
ignore pattern and no exception class. -/
def addDefaultClass (cfg : TcConfig) (env : ExecEnv) (st : ShaperState) :
    StepOut × ShaperState × List Event :=
  let classid := cfg.qdisc_major_id_str ++ ":1"
  let st1 := { st with classid_wo_shaping := some classid }
  match cfg.class_command with
  | none => (.typeError, st1, [])
  | some base =>
    let cmd := defaultClassCmd cfg base
    let notice := if cfg.is_add_shaping_rule then none else some ""
    match runCommandHelper env.default_class_result
        (some cfg.file_exists_matches) notice false with
    | .exited c => (.exited c, st1, [Event.defaultClassCmd cmd])
    | .raised => (.raisedAlreadyExist, st1, [Event.defaultClassCmd cmd])
    | .ret _ => (.ok, st1, [Event.defaultClassCmd cmd])

/-- `HtbShaper._make_qdisc`: returns immediately when the qdisc command is
`None` or the mode is change; otherwise dispatches the root-discipline command
with `TcAlreadyExist` as the exception class and, on a normal helper return,
continues into `__add_default_class`. -/
def makeQdisc (cfg : TcConfig) (env : ExecEnv) (st : ShaperState) :
    StepOut × ShaperState × List Event :=
  match cfg.qdisc_command with
  | none => (.ok, st, [])
  | some base =>
    if cfg.is_change_shaping_rule then (.ok, st, [])
    else
      let cmd := makeQdiscCmd cfg base
      let notice := if cfg.is_add_shaping_rule then none else some ""
      match runCommandHelper env.qdisc_result
          (some cfg.file_exists_matches) notice true with
      | .exited c => (.exited c, st, [Event.qdiscCmd cmd])
      | .raised => (.raisedAlreadyExist, st, [Event.qdiscCmd cmd])
      | .ret _ =>
        let r := addDefaultClass cfg env st
        (r.1, r.2.1, Event.qdiscCmd cmd :: r.2.2)

/-- The structured rate-limited class command of `HtbShaper._add_rate`:
`kbits` defaults to the device's no-limit value when `bandwidth_rate` is
`None`, and `burst`/`cburst` (`kbits / (10 * 8)` kilobytes) are appended only
when `kbits != no_limit_kbits`. -/
def buildRateCommand (cfg : TcConfig) (base : String) (minor : Nat) :
    RateCommand :=
  let parent :=
    String.mk ((splitChar ':' (cfg.tc_parent_of
      (cfg.qdisc_major_id_str ++ ":")).data).getD 0 []) ++ ":"
  let classid := cfg.tc_parent_of (cfg.qdisc_major_id_str ++ ":" ++ toString minor)
  let kbits := cfg.bandwidth_rate.getD cfg.no_limit_kbits
  { base := base, dev := cfg.dev, parent := parent, classid := classid,
    algorithm := algorithmName, rate_kbit := kbits, ceil_kbit := kbits,
    burst_KB := if kbits = cfg.no_limit_kbits then none
      else some ((kbits : ℚ) / 80),
    cburst_KB := if kbits = cfg.no_limit_kbits then none
      else some ((kbits : ℚ) / 80) }

/-- `HtbShaper._add_rate`: allocates the class minor id (before the
`" ".join` would fail on a `None` base command), then dispatches the class
command with `TcAlreadyExist` as the exception class. -/
def addRate (cfg : TcConfig) (env : ExecEnv) (st : ShaperState) :
    StepOut × ShaperState × List Event :=
  let m := getQdiscMinorId cfg st
  match cfg.class_command with
  | none => (.typeError, m.2.1, m.2.2)
  | some base =>
    let rc := buildRateCommand cfg base m.1
    let evs := m.2.2 ++ [Event.rateCmd rc]
    match runCommandHelper env.rate_result
        (some cfg.file_exists_matches) (some "") true with
    | .exited c => (.exited c, m.2.1, evs)
    | .raised => (.raisedAlreadyExist, m.2.1, evs)
    | .ret _ => (.ok, m.2.1, evs)

/-- Modelled from the spec: `_set_netem` (declared outside `src/`) applies the
network-emulation parameters under a freshly allocated netem major id and has
no already-exists guard — its failure is whatever code the executor reports,
which `set_shaping` ignores.  The allocation itself is the `src/` code
`_get_netem_qdisc_major_id`; a conversion failure there propagates as
`ValueError`. -/
def setNetem (cfg : TcConfig) (env : ExecEnv) (st : ShaperState) :
    StepOut × ShaperState × List Event :=
  let _ := env
  match getNetemQdiscMajorId cfg cfg.qdisc_major_id st with
  | (none, st1, evs) => (.valueError, st1, evs)
  | (some _, st1, evs) => (.ok, st1, evs ++ [Event.netemCmd])

/-- The exclusion-filter command text of `HtbShaper._add_exclude_filter` for a
known flow-target classid. -/
def excludeFilterCmd (cfg : TcConfig) (base classid : String) : String :=
  String.intercalate " "
    ([base, cfg.dev, "protocol " ++ cfg.protocol,
        "parent " ++ cfg.qdisc_major_id_str ++ ":", "prio 1", "u32"]
      ++ (if !isNullOptStr cfg.exclude_dst_network then
            ["match " ++ cfg.protocol_match ++ " dst "
              ++ cfg.exclude_dst_network.getD ""] else [])
      ++ (if !isNullOptStr cfg.exclude_src_network then
            ["match " ++ cfg.protocol_match ++ " src "
              ++ cfg.exclude_src_network.getD ""] else [])
      ++ (if !isNullOptStr cfg.exclude_dst_port then
            ["match " ++ cfg.protocol_match ++ " dport "
              ++ cfg.exclude_dst_port.getD "" ++ " 0xffff"] else [])
      ++ (if !isNullOptStr cfg.exclude_src_port then
            ["match " ++ cfg.protocol_match ++ " sport "
              ++ cfg.exclude_src_port.getD "" ++ " 0xffff"] else [])
      ++ ["flowid " ++ classid])

/-- `HtbShaper._add_exclude_filter`: returns with no dispatch when all four
exclusion criteria are null strings or when the filter command is `None`;
otherwise appends the match clauses and then formats
`"flowid {:s}".format(self.__classid_wo_shaping)` — a `TypeError` when that
field is still `None` — before dispatching directly through
`subprocrunner.SubprocessRunner(...).run()`. -/
def addExcludeFilter (cfg : TcConfig) (env : ExecEnv) (st : ShaperState) :
    StepOut × ShaperState × List Event :=
  let _ := env
  if isNullOptStr cfg.exclude_dst_network && isNullOptStr cfg.exclude_src_network
      && isNullOptStr cfg.exclude_dst_port && isNullOptStr cfg.exclude_src_port then
    (.ok, st, [])
  else
    match cfg.filter_command with
    | none => (.ok, st, [])
    | some base =>
      match st.classid_wo_shaping with
      | none => (.typeError, st, [])
      | some classid =>
        (.ok, st, [Event.excludeFilterCmd (excludeFilterCmd cfg base classid)])

/-- Modelled from the spec: `_add_filter` (declared outside `src/`) dispatches
one classification filter command directing non-excluded traffic into the
rate-limited class; `set_shaping` ignores its result. -/
def addFilter (cfg : TcConfig) (env : ExecEnv) (st : ShaperState) :
    StepOut × ShaperState × List Event :=
  let _ := cfg
  let _ := env
  (.ok, st, [Event.classifyFilterCmd])

/-- How `set_shaping` itself ends: a normal `return` (0 or `errno.EINVAL`), a
propagated `sys.exit`, or a propagated Python exception. -/
inductive ShapingResult where
  | returned (code : Int)
  | exited (code : Int)
  | typeError
  | valueError
  | uncaughtAlreadyExist
deriving DecidableEq

/-- Phase 5 of `set_shaping`: `self._add_filter()`, then `return 0`. -/
def stageAddFilter (cfg : TcConfig) (env : ExecEnv) (st : ShaperState)
    (ev : List Event) : ShapingResult × List Event :=
  let r := addFilter cfg env st
  let ev := ev ++ r.2.2
  match r.1 with
  | .ok => (.returned 0, ev)
  | .exited c => (.exited c, ev)
  | .typeError => (.typeError, ev)
  | .valueError => (.valueError, ev)
  | .raisedAlreadyExist => (.uncaughtAlreadyExist, ev)

/-- Phase 4 of `set_shaping`: `self._add_exclude_filter()` with no
already-exists guard. -/
def stageExcludeFilter (cfg : TcConfig) (env : ExecEnv) (st : ShaperState)
    (ev : List Event) : ShapingResult × List Event :=
  let r := addExcludeFilter cfg env st
  let ev := ev ++ r.2.2
  match r.1 with
  | .ok => stageAddFilter cfg env r.2.1 ev
  | .exited c => (.exited c, ev)
  | .typeError => (.typeError, ev)
  | .valueError => (.valueError, ev)
  | .raisedAlreadyExist => (.uncaughtAlreadyExist, ev)

/-- Phase 3 of `set_shaping`: `self._set_netem()` with no already-exists
guard. -/
def stageSetNetem (cfg : TcConfig) (env : ExecEnv) (st : ShaperState)
    (ev : List Event) : ShapingResult × List Event :=
  let r := setNetem cfg env st
  let ev := ev ++ r.2.2
  match r.1 with
  | .ok => stageExcludeFilter cfg env r.2.1 ev
  | .exited c => (.exited c, ev)
  | .typeError => (.typeError, ev)
  | .valueError => (.valueError, ev)
  | .raisedAlreadyExist => (.uncaughtAlreadyExist, ev)

/-- Phase 2 of `set_shaping`:
`try: self._add_rate() except TcAlreadyExist: if not is_add_shaping_rule:
return errno.EINVAL` — in add mode the exception is swallowed and execution
continues. -/
def stageAddRate (cfg : TcConfig) (env : ExecEnv) (st : ShaperState)
    (ev : List Event) : ShapingResult × List Event :=
  let r := addRate cfg env st
  let ev := ev ++ r.2.2
  match r.1 with
  | .ok => stageSetNetem cfg env r.2.1 ev
  | .raisedAlreadyExist =>
    if cfg.is_add_shaping_rule then stageSetNetem cfg env r.2.1 ev
    else (.returned EINVAL, ev)
  | .exited c => (.exited c, ev)
  | .typeError => (.typeError, ev)
  | .valueError => (.valueError, ev)

/-- `HtbShaper.set_shaping`: the five phases
`_make_qdisc → _add_rate → _set_netem → _add_exclude_filter → _add_filter`,
with the `TcAlreadyExist` guard on the first two phases returning
`errno.EINVAL` exactly when the mode is not add. -/
def setShaping (cfg : TcConfig) (env : ExecEnv) : ShapingResult × List Event :=
  let r := makeQdisc cfg env initState
  match r.1 with
  | .ok => stageAddRate cfg env r.2.1 r.2.2
  | .raisedAlreadyExist =>
    if cfg.is_add_shaping_rule then stageAddRate cfg env r.2.1 r.2.2
    else (.returned EINVAL, r.2.2)
  | .exited c => (.exited c, r.2.2)
  | .typeError => (.typeError, r.2.2)
  | .valueError => (.valueError, r.2.2)

/-- Recognizes the rate-limited class-creation command event. -/
def isRateEvent : Event → Bool
  | .rateCmd _ => true
  | _ => false

/-- Recognizes the root-discipline command event. -/
def isQdiscEvent : Event → Bool
  | .qdiscCmd _ => true
  | _ => false

/-- Recognizes the netem command marker. -/
def isNetemEvent : Event → Bool
  | .netemCmd => true
  | _ => false

/-- Recognizes either filter command event. -/
def isFilterEvent : Event → Bool
  | .excludeFilterCmd _ => true
  | .classifyFilterCmd => true
  | _ => false

/-- The `REGEXP_FILE_EXISTS` pattern: a search for the literal
`RTNETLINK answers: File exists`. -/
def fileExistsSearch (s : String) : Bool :=
  containsStr s "RTNETLINK answers: File exists"

/-- A concrete shaping specification, varied per scenario below. -/
def baseCfg : TcConfig :=
  { dev := "eth0", is_add_shaping_rule := false, is_change_shaping_rule := false,
    tc_command_output_not_set := true,
    qdisc_major_id := 26, qdisc_major_id_str := "1a",
    bandwidth_rate := none, no_limit_kbits := 1000000,
    protocol := "ip", protocol_match := "ip",
    exclude_dst_network := none, exclude_src_network := none,
    exclude_dst_port := none, exclude_src_port := none,
    qdisc_command := some "tc qdisc add dev",
    class_command := some "tc class add dev",
    filter_command := some "tc filter add dev",
    file_exists_matches := fileExistsSearch,
    tc_parent_of := fun s => s,
    class_show_output := "", qdisc_show_output := "" }

/-- A successful executor result. -/
def okResult : CmdResult := { returncode := 0, stderr := "" }

/-- A failed executor result whose stderr matches the file-exists pattern. -/
def fileExistsResult : CmdResult :=
  { returncode := 2, stderr := "RTNETLINK answers: File exists" }

/-- An executor where every command succeeds. -/
def envOk : ExecEnv :=
  { qdisc_result := okResult, default_class_result := okResult,
    rate_result := okResult, netem_result := okResult,
    exclude_filter_result := okResult, filter_result := okResult }

/-- C3: in execute mode (command output not captured, mode not change), class
minor-id allocation returns the smallest integer ≥ 1 (the default class minor
id) that is not among the minor ids parsed from the existing-class listing for
the target major id. -/
theorem c3_minor_id_alloc_smallest_free (cfg : TcConfig) (st : ShaperState)
    (hexec : cfg.tc_command_output_not_set = true)
    (hchange : cfg.is_change_shaping_rule = false) :
    (getUniqueQdiscMinorId cfg st).1
        ∉ existClassMinorIds cfg.qdisc_major_id_str cfg.class_show_output ∧
      1 ≤ (getUniqueQdiscMinorId cfg st).1 ∧
      ∀ k, 1 ≤ k → k < (getUniqueQdiscMinorId cfg st).1 →
        k ∈ existClassMinorIds cfg.qdisc_major_id_str cfg.class_show_output := by
  have hcond :
      (!cfg.tc_command_output_not_set || cfg.is_change_shaping_rule) = false := by
    rw [hexec, hchange]; rfl
  simp only [getUniqueQdiscMinorId, hcond, Bool.false_eq_true, if_false]
  exact firstFree_spec _ 1

/-- The existing-class listing with minor ids {1, 3, 5}. -/
def listingC3 : String :=
  "class htb 1a:1 root leaf\nclass htb 1a:3 parent 1a:\nclass htb 1a:5 parent 1a:"

/-- Execute-mode configuration over the {1, 3, 5} listing. -/
def cfgC3 : TcConfig := { baseCfg with class_show_output := listingC3 }

theorem c3_minor_id_alloc_smallest_free_witness :
    ((getUniqueQdiscMinorId cfgC3 initState).1
        ∉ existClassMinorIds cfgC3.qdisc_major_id_str cfgC3.class_show_output ∧
      1 ≤ (getUniqueQdiscMinorId cfgC3 initState).1 ∧
      ∀ k, 1 ≤ k → k < (getUniqueQdiscMinorId cfgC3 initState).1 →
        k ∈ existClassMinorIds cfgC3.qdisc_major_id_str cfgC3.class_show_output) ∧
    existClassMinorIds cfgC3.qdisc_major_id_str cfgC3.class_show_output = [1, 3, 5] ∧
    (getUniqueQdiscMinorId cfgC3 initState).1 = 2 :=
  ⟨c3_minor_id_alloc_smallest_free cfgC3 initState rfl rfl, by decide, by decide⟩

/-- C4: network-emulation major-id allocation returns the smallest integer
≥ `qdisc_major_id + 128` not among the base-16 trailing tokens of the matched
`qdisc <alg> <token>` items (stated under the hypothesis that every matched
token converts, i.e. the conversion loop completes). -/
theorem c4_netem_major_alloc_smallest_free (cfg : TcConfig) (st : ShaperState)
    (ids : List Nat) (hp : netemMajorIds cfg.qdisc_show_output = some ids) :
    (getUniqueNetemMajorId cfg st).1
        = some (firstFree ids (cfg.qdisc_major_id + 128)) ∧
      firstFree ids (cfg.qdisc_major_id + 128) ∉ ids ∧
      cfg.qdisc_major_id + 128 ≤ firstFree ids (cfg.qdisc_major_id + 128) ∧
      ∀ k, cfg.qdisc_major_id + 128 ≤ k →
        k < firstFree ids (cfg.qdisc_major_id + 128) → k ∈ ids := by
  obtain ⟨h1, h2, h3⟩ := firstFree_spec ids (cfg.qdisc_major_id + 128)
  refine ⟨?_, h1, h2, h3⟩
  simp [getUniqueNetemMajorId, hp]

/-- Configuration with `qdisc_major_id = 10` over a qdisc listing holding one
discipline at major id 0x8e = 142. -/
def cfgC4 : TcConfig :=
  { baseCfg with
    qdisc_major_id := 10, qdisc_major_id_str := "a",
    qdisc_show_output := "qdisc htb 8e: root refcnt 2" }

theorem c4_netem_major_alloc_smallest_free_witness :
    ((getUniqueNetemMajorId cfgC4 initState).1
        = some (firstFree [142] (cfgC4.qdisc_major_id + 128)) ∧
      firstFree [142] (cfgC4.qdisc_major_id + 128) ∉ [142] ∧
      cfgC4.qdisc_major_id + 128 ≤ firstFree [142] (cfgC4.qdisc_major_id + 128) ∧
      ∀ k, cfgC4.qdisc_major_id + 128 ≤ k →
        k < firstFree [142] (cfgC4.qdisc_major_id + 128) → k ∈ [142]) ∧
    netemMajorIds cfgC4.qdisc_show_output = some [142] ∧
    firstFree [142] (cfgC4.qdisc_major_id + 128) = 138 :=
  ⟨c4_netem_major_alloc_smallest_free cfgC4 initState [142] (by decide),
    by decide, by decide⟩

/-- C5: in output-only mode (or change mode) each call of the minor-id
allocator increments the per-invocation counter and returns
`DEFAULT_CLASS_MINOR_ID + counter`, so two sequential calls return strictly
increasing ids and neither fetches the existing-state listing. -/
theorem c5_output_mode_counter_alloc (cfg : TcConfig) (st : ShaperState)
    (h : cfg.tc_command_output_not_set = false ∨ cfg.is_change_shaping_rule = true) :
    (getUniqueQdiscMinorId cfg st).1 = 1 + (st.qdisc_minor_id_count + 1) ∧
    (getUniqueQdiscMinorId cfg (getUniqueQdiscMinorId cfg st).2.1).1
        = 1 + (st.qdisc_minor_id_count + 2) ∧
    (getUniqueQdiscMinorId cfg st).1
        < (getUniqueQdiscMinorId cfg (getUniqueQdiscMinorId cfg st).2.1).1 ∧
    (getUniqueQdiscMinorId cfg st).2.2 = [] ∧
    (getUniqueQdiscMinorId cfg (getUniqueQdiscMinorId cfg st).2.1).2.2 = [] := by
  have hcond :
      (!cfg.tc_command_output_not_set || cfg.is_change_shaping_rule) = true := by
    rcases h with h | h <;> simp [h]
  simp [getUniqueQdiscMinorId, hcond]

/-- Output-only mode configuration (command output captured, not executed). -/
def cfgC5 : TcConfig := { baseCfg with tc_command_output_not_set := false }

theorem c5_output_mode_counter_alloc_witness :
    ((getUniqueQdiscMinorId cfgC5 initState).1 = 1 + (initState.qdisc_minor_id_count + 1) ∧
      (getUniqueQdiscMinorId cfgC5 (getUniqueQdiscMinorId cfgC5 initState).2.1).1
          = 1 + (initState.qdisc_minor_id_count + 2) ∧
      (getUniqueQdiscMinorId cfgC5 initState).1
          < (getUniqueQdiscMinorId cfgC5 (getUniqueQdiscMinorId cfgC5 initState).2.1).1 ∧
      (getUniqueQdiscMinorId cfgC5 initState).2.2 = [] ∧
      (getUniqueQdiscMinorId cfgC5 (getUniqueQdiscMinorId cfgC5 initState).2.1).2.2 = []) ∧
    (getUniqueQdiscMinorId cfgC5 initState).1 = 2 ∧
    (getUniqueQdiscMinorId cfgC5 (getUniqueQdiscMinorId cfgC5 initState).2.1).1 = 3 :=
  ⟨c5_output_mode_counter_alloc cfgC5 initState (Or.inl rfl), by decide, by decide⟩

/-- C7: with no explicit bandwidth rate the rate-limited class command carries
the device's no-limit kilobit value as both rate and ceil and omits
burst/cburst; burst and cburst (rate / 80 kilobytes each) are present exactly
when an explicit rate different from the no-limit value is requested. -/
theorem c7_rate_command_no_limit_and_burst (cfg : TcConfig) (base : String)
    (minor : Nat) :
    (cfg.bandwidth_rate = none →
      (buildRateCommand cfg base minor).rate_kbit = cfg.no_limit_kbits ∧
      (buildRateCommand cfg base minor).ceil_kbit = cfg.no_limit_kbits ∧
      (buildRateCommand cfg base minor).burst_KB = none ∧
      (buildRateCommand cfg base minor).cburst_KB = none) ∧
    ∀ r : Nat, cfg.bandwidth_rate = some r →
      ((buildRateCommand cfg base minor).burst_KB
          = if r = cfg.no_limit_kbits then none else some ((r : ℚ) / 80)) ∧
      ((buildRateCommand cfg base minor).cburst_KB
          = if r = cfg.no_limit_kbits then none else some ((r : ℚ) / 80)) := by
  constructor
  · intro h
    simp [buildRateCommand, h]
  · intro r h
    constructor <;> simp [buildRateCommand, h]

/-- Configuration requesting an explicit 1000 kbit rate. -/
def cfgC7 : TcConfig := { baseCfg with bandwidth_rate := some 1000 }

theorem c7_rate_command_no_limit_and_burst_witness :
    ((buildRateCommand baseCfg "tc class add dev" 2).rate_kbit = baseCfg.no_limit_kbits ∧
      (buildRateCommand baseCfg "tc class add dev" 2).ceil_kbit = baseCfg.no_limit_kbits ∧
      (buildRateCommand baseCfg "tc class add dev" 2).burst_KB = none ∧
      (buildRateCommand baseCfg "tc class add dev" 2).cburst_KB = none) ∧
    (buildRateCommand cfgC7 "tc class add dev" 2).burst_KB = some ((1000 : ℚ) / 80) ∧
    (buildRateCommand cfgC7 "tc class add dev" 2).cburst_KB = some ((1000 : ℚ) / 80) := by
  refine ⟨(c7_rate_command_no_limit_and_burst baseCfg "tc class add dev" 2).1 rfl, ?_, ?_⟩
  · have h := ((c7_rate_command_no_limit_and_burst cfgC7 "tc class add dev" 2).2 1000 rfl).1
    rwa [if_neg (by decide)] at h
  · have h := ((c7_rate_command_no_limit_and_burst cfgC7 "tc class add dev" 2).2 1000 rfl).2
    rwa [if_neg (by decide)] at h

/-- C8: when all four exclusion criteria are null strings the exclusion-filter
step returns with no executor invocation at all. -/
theorem c8_exclude_filter_all_null_skips (cfg : TcConfig) (env : ExecEnv)
    (st : ShaperState)
    (h1 : isNullOptStr cfg.exclude_dst_network = true)
    (h2 : isNullOptStr cfg.exclude_src_network = true)
    (h3 : isNullOptStr cfg.exclude_dst_port = true)
    (h4 : isNullOptStr cfg.exclude_src_port = true) :
    addExcludeFilter cfg env st = (.ok, st, []) := by
  unfold addExcludeFilter
  simp [h1, h2, h3, h4]

theorem c8_exclude_filter_all_null_skips_witness :
    addExcludeFilter baseCfg envOk initState = (.ok, initState, []) :=
  c8_exclude_filter_all_null_skips baseCfg envOk initState rfl rfl rfl rfl

/-- C10: in change mode `_make_qdisc` returns before dispatching anything, so
the remembered no-shaping classid stays `None`; consequently, with at least one
non-null exclusion criterion (and a present filter command), the exclusion
filter step hits the `"flowid {:s}".format(None)` `TypeError` and no exclusion
filter directed at the default class is ever dispatched. -/
theorem c10_change_mode_exclude_flowid_unset (cfg : TcConfig) (env : ExecEnv)
    (hch : cfg.is_change_shaping_rule = true)
    (hcrit : (isNullOptStr cfg.exclude_dst_network
        && isNullOptStr cfg.exclude_src_network
        && isNullOptStr cfg.exclude_dst_port
        && isNullOptStr cfg.exclude_src_port) = false)
    (hf : cfg.filter_command.isSome = true) :
    makeQdisc cfg env initState = (.ok, initState, []) ∧
    (makeQdisc cfg env initState).2.1.classid_wo_shaping = none ∧
    addExcludeFilter cfg env (makeQdisc cfg env initState).2.1
        = (.typeError, (makeQdisc cfg env initState).2.1, []) := by
  have hmk : makeQdisc cfg env initState = (.ok, initState, []) := by
    unfold makeQdisc
    cases hq : cfg.qdisc_command with
    | none => rfl
    | some b => simp [hch]
  refine ⟨hmk, by rw [hmk]; rfl, ?_⟩
  rw [hmk]
  cases hfc : cfg.filter_command with
  | none => rw [hfc] at hf; simp at hf
  | some b =>
    unfold addExcludeFilter
    simp [hcrit, hfc, initState]

/-- Change-mode configuration with one non-null exclusion criterion. -/
def cfgC10 : TcConfig :=
  { baseCfg with
    is_change_shaping_rule := true,
    exclude_dst_network := some "192.168.11.0/24" }

theorem c10_change_mode_exclude_flowid_unset_witness :
    makeQdisc cfgC10 envOk initState = (.ok, initState, []) ∧
    (makeQdisc cfgC10 envOk initState).2.1.classid_wo_shaping = none ∧
    addExcludeFilter cfgC10 envOk (makeQdisc cfgC10 envOk initState).2.1
        = (.typeError, (makeQdisc cfgC10 envOk initState).2.1, []) :=
  c10_change_mode_exclude_flowid_unset cfgC10 envOk rfl (by decide) rfl

/-- In change mode `_make_qdisc` returns 0 before dispatching anything. -/
theorem makeQdisc_change (cfg : TcConfig) (env : ExecEnv) (st : ShaperState)
    (hch : cfg.is_change_shaping_rule = true) :
    makeQdisc cfg env st = (.ok, st, []) := by
  unfold makeQdisc
  cases cfg.qdisc_command with
  | none => rfl
  | some b => simp [hch]

/-- A failing command whose stderr matches the supplied ignore pattern makes
the helper raise the supplied exception class, whatever the notice message. -/
theorem runCommandHelper_raises (res : CmdResult) (p : String → Bool)
    (hrc : res.returncode ≠ 0) (hmatch : p res.stderr = true) :
    ∀ notice, runCommandHelper res (some p) notice true = .raised := by
  intro notice
  unfold runCommandHelper
  rw [if_neg hrc]
  simp [hmatch]

/-- C1 (amended): when the mode is neither add nor change and the
root-discipline command fails with the already-exists condition, `set_shaping`
returns `errno.EINVAL` having dispatched only that one command — no
default-class, rate-class, netem or filter command follows.  (In add mode the
same condition is tolerated and execution proceeds.) -/
theorem c1_nonadd_already_exists_einval (cfg : TcConfig) (env : ExecEnv)
    (b : String) (hq : cfg.qdisc_command = some b)
    (hadd : cfg.is_add_shaping_rule = false)
    (hch : cfg.is_change_shaping_rule = false)
    (hrc : env.qdisc_result.returncode ≠ 0)
    (hmatch : cfg.file_exists_matches env.qdisc_result.stderr = true) :
    setShaping cfg env = (.returned EINVAL, [Event.qdiscCmd (makeQdiscCmd cfg b)]) := by
  have hhelp := runCommandHelper_raises env.qdisc_result cfg.file_exists_matches
    hrc hmatch
  unfold setShaping makeQdisc
  rw [hq]
  simp [hch, hhelp, hadd]

/-- Default-mode (neither add nor change) configuration. -/
def cfgC1d : TcConfig := baseCfg

/-- Executor where the root-discipline command fails with `File exists`. -/
def envC1 : ExecEnv := { envOk with qdisc_result := fileExistsResult }

theorem c1_nonadd_already_exists_einval_witness :
    setShaping cfgC1d envC1
        = (.returned EINVAL, [Event.qdiscCmd (makeQdiscCmd cfgC1d "tc qdisc add dev")]) :=
  c1_nonadd_already_exists_einval cfgC1d envC1 "tc qdisc add dev" rfl rfl rfl
    (by decide) (by decide)

/-- Add-mode configuration. -/
def cfgC1 : TcConfig := { baseCfg with is_add_shaping_rule := true }

theorem c1_counterexample :
    (setShaping cfgC1 envC1).1 = .returned 0 ∧
    (setShaping cfgC1 envC1).1 ≠ .returned EINVAL ∧
    ((setShaping cfgC1 envC1).2.any isRateEvent) = true ∧
    ((setShaping cfgC1 envC1).2.any isNetemEvent) = true := by
  decide

/-- C2 (amended): in change mode the root-discipline phase dispatches nothing
(so a root already-exists failure cannot arise there), and when the
class-creation command fails with the already-exists condition `set_shaping`
returns `errno.EINVAL` instead of proceeding — only the rate-class command was
dispatched, no netem or filter phase runs. -/
theorem c2_change_already_exists_einval (cfg : TcConfig) (env : ExecEnv)
    (b : String) (hcl : cfg.class_command = some b)
    (hch : cfg.is_change_shaping_rule = true)
    (hadd : cfg.is_add_shaping_rule = false)
    (hrc : env.rate_result.returncode ≠ 0)
    (hmatch : cfg.file_exists_matches env.rate_result.stderr = true) :
    (setShaping cfg env).1 = .returned EINVAL ∧
    ((setShaping cfg env).2.all isRateEvent) = true := by
  have hmk := makeQdisc_change cfg env initState hch
  have hhelp := runCommandHelper_raises env.rate_result cfg.file_exists_matches
    hrc hmatch
  have hcond :
      (!cfg.tc_command_output_not_set || cfg.is_change_shaping_rule) = true := by
    simp [hch]
  unfold setShaping
  rw [hmk]
  simp only [stageAddRate, addRate, getQdiscMinorId, getUniqueQdiscMinorId,
    hcond, hcl, hhelp, hadd, if_true]
  simp [initState, isRateEvent]

/-- Change-mode configuration. -/
def cfgC2 : TcConfig := { baseCfg with is_change_shaping_rule := true }

/-- Executor where the class-creation command fails with `File exists`. -/
def envC2 : ExecEnv := { envOk with rate_result := fileExistsResult }

theorem c2_change_already_exists_einval_witness :
    (setShaping cfgC2 envC2).1 = .returned EINVAL ∧
    ((setShaping cfgC2 envC2).2.all isRateEvent) = true :=
  c2_change_already_exists_einval cfgC2 envC2 "tc class add dev" rfl rfl rfl
    (by decide) (by decide)

theorem c2_counterexample :
    (setShaping cfgC2 envC2).1 ≠ .returned 0 ∧
    ((setShaping cfgC2 envC2).2.any isNetemEvent) = false ∧
    ((setShaping cfgC2 envC2).2.any isFilterEvent) = false := by
  decide

/-- C6 (amended): the netem major-id allocator has no conversion guard — it
aborts (uncaught `ValueError`) exactly when some matched `qdisc <alg> <token>`
item's trailing token fails base-16 conversion; only the class minor-id
allocator skips failing conversions. -/
theorem c6_netem_abort_iff_bad_token (cfg : TcConfig) (st : ShaperState) :
    (getUniqueNetemMajorId cfg st).1 = none ↔
      ((netemItems cfg.qdisc_show_output).any
        fun it => (pyIntHex (lastWord it)).isNone) = true := by
  have key := convertAllHex_eq_none_iff (netemItems cfg.qdisc_show_output)
  unfold getUniqueNetemMajorId netemMajorIds
  rcases h : convertAllHex (netemItems cfg.qdisc_show_output) with _ | ids
  · rw [h] at key
    simpa using key.mp rfl
  · rw [h] at key
    constructor
    · intro hcontra
      simp at hcontra
    · intro hany
      exact absurd (key.mpr hany) (by simp)

/-- Configuration whose qdisc listing carries a matched item with a non-hex
trailing token. -/
def cfgC6 : TcConfig :=
  { baseCfg with
    qdisc_major_id := 10,
    qdisc_show_output := "qdisc noqueue zz" }

theorem c6_counterexample :
    netemItems cfgC6.qdisc_show_output ≠ [] ∧
    (pyIntHex (lastWord ((netemItems cfgC6.qdisc_show_output).getD 0 []))).isNone = true ∧
    (getUniqueNetemMajorId cfgC6 initState).1 = none ∧
    (getUniqueNetemMajorId cfgC6 initState).1
        ≠ some (firstFree [] (cfgC6.qdisc_major_id + 128)) := by
  decide

theorem c6_netem_abort_iff_bad_token_witness :
    ((getUniqueNetemMajorId cfgC4 initState).1 = none ↔
      ((netemItems cfgC4.qdisc_show_output).any
        fun it => (pyIntHex (lastWord it)).isNone) = true) ∧
    ((netemItems cfgC4.qdisc_show_output).any
        fun it => (pyIntHex (lastWord it)).isNone) = false :=
  ⟨c6_netem_abort_iff_bad_token cfgC4 initState, by decide⟩

/-- C9 (amended): a failing command whose stderr holds the
operation-not-permitted error makes the helper exit with the tool's code
whenever an ignore pattern was supplied and did not match the stderr; when the
stderr also matches the ignore pattern, the already-exists path wins instead
(see the counterexample). -/
theorem c9_perm_denied_exits (res : CmdResult) (p : String → Bool)
    (notice : Option String) (raises : Bool)
    (hrc : res.returncode ≠ 0)
    (hnomatch : p res.stderr = false)
    (hperm : opNotPermitted res.stderr = true) :
    runCommandHelper res (some p) notice raises = .exited res.returncode := by
  unfold runCommandHelper
  rw [if_neg hrc]
  simp [hnomatch, hperm]

/-- A failed result whose stderr is only the permission denial. -/
def permDeniedResult : CmdResult :=
  { returncode := 2, stderr := "RTNETLINK answers: Operation not permitted" }

theorem c9_perm_denied_exits_witness :
    runCommandHelper permDeniedResult (some fileExistsSearch) none true
      = .exited 2 :=
  c9_perm_denied_exits permDeniedResult fileExistsSearch none true
    (by decide) (by decide) (by decide)

/-- A failed result whose stderr holds both the file-exists line and the
permission-denial line. -/
def bothErrResult : CmdResult :=
  { returncode := 2,
    stderr := "RTNETLINK answers: File exists\nRTNETLINK answers: Operation not permitted" }

theorem c9_counterexample :
    opNotPermitted bothErrResult.stderr = true ∧
    bothErrResult.returncode ≠ 0 ∧
    runCommandHelper bothErrResult (some fileExistsSearch) none true
        ≠ .exited bothErrResult.returncode ∧
    runCommandHelper bothErrResult (some fileExistsSearch) none true = .raised := by
  decide

end Tcconfig
